import Mathlib

/-!
# Verification of the FTPClientServer FTP server engine

A shallow embedding of the server sources (`src/FTPServer.cpp`,
`src/espFtpServer.cpp`, `src/espFtpServer.h`) in Lean 4, with theorems about
the command decoder, the login state machine, the path resolver, the rename
protocol, the RETR/STOR command branches, the Receive transfer poll, the
transfer-buffer allocator and the buffer release logic.

Strings are modelled as `List Char` (the sources only handle ASCII command
lines).  The Arduino `String` member functions used by the sources
(`trim`, `indexOf`, `substring`, `remove`, `lastIndexOf`, `endsWith`,
`toUpperCase`, `operator[]`) are given direct counterparts below with the
same out-of-range conventions as the Arduino core.
-/

/-- Arduino `String::operator[]`: returns the NUL character `'\x00'` when the
index is out of range. -/
def charAtZ (s : List Char) (i : Nat) : Char :=
  s.getD i (Char.ofNat 0)

/-- Arduino `String::remove(index)`: drops the characters from `index` to the
end of the string; a no-op when `index` is at or past the end. -/
def removeFrom (s : List Char) (i : Nat) : List Char :=
  if i < s.length then s.take i else s

/-- Arduino `String::remove(index, count)`. -/
def removeRange (s : List Char) (i n : Nat) : List Char :=
  if i < s.length then s.take i ++ s.drop (i + n) else s

/-- `endsWith("/")`: does the string end in a `'/'`?  (The sources only ever
test the one-character suffix `aSlash`.) -/
def endsWithSlash (s : List Char) : Bool :=
  match s.reverse with
  | [] => false
  | c :: _ => c = '/'

/-- The character class trimmed by Arduino `String::trim` (C `isspace`). -/
def isSpaceChar (c : Char) : Bool :=
  c = ' ' ∨ c = '\t' ∨ c = '\n' ∨ c = '\x0b' ∨ c = '\x0c' ∨ c = '\r'

/-- Arduino `String::trim`: strips leading and trailing whitespace. -/
def trimAscii (s : List Char) : List Char :=
  ((s.dropWhile isSpaceChar).reverse.dropWhile isSpaceChar).reverse

/-- Arduino `String::indexOf(" ")`: index of the first space, `-1` if none. -/
def indexOfChar (c : Char) : List Char → Int
  | [] => -1
  | a :: rest =>
    if a = c then 0
    else
      let r := indexOfChar c rest
      if r ≥ 0 then r + 1 else -1

/-- Arduino `String::lastIndexOf("/")`: index of the last occurrence of the
character, `-1` if none. -/
def lastIndexOfChar (c : Char) : List Char → Int
  | [] => -1
  | a :: rest =>
    let r := lastIndexOfChar c rest
    if r ≥ 0 then r + 1
    else if a = c then 0 else -1

/-- Arduino `String::toUpperCase`, per character (ASCII `a`–`z` only). -/
def charUpper (c : Char) : Char :=
  if 'a' ≤ c ∧ c ≤ 'z' then Char.ofNat (c.toNat - 32) else c

/-- Arduino `String::toUpperCase` over the whole string. -/
def strUpper (s : List Char) : List Char := s.map charUpper

/-- `FTPServer::readChar`, line 1101: `command = *(const uint32_t *)cmdString.c_str();`
packs the first four bytes of the upper-cased command token into a 32-bit
little-endian integer.  Bytes past the end of the token are the NUL
terminator and are modelled as `0` (this is also how the `FTP_CMD` macro of
the common header, which is not part of `src/`, packs a command name — per
the spec, it "encodes up to 4 characters of a command into a fixed-width
integer"). -/
def ftpCmdCode (s : List Char) : Nat :=
  let byte := fun (i : Nat) => if i < s.length then (charAtZ s i).toNat % 256 else 0
  byte 0 + byte 1 * 256 + byte 2 * 65536 + byte 3 * 16777216

/-- `FTP_CMD(USER)` — Modelled from the spec: the command-code macro lives in
the common header that is not under `src/`; the spec's design note describes
it as packing up to 4 characters of the command name into a fixed-width
integer, exactly as `readChar` does at runtime. -/
def cmdUSER : Nat := ftpCmdCode "USER".data
def cmdPASS : Nat := ftpCmdCode "PASS".data
def cmdQUIT : Nat := ftpCmdCode "QUIT".data
def cmdNOOP : Nat := ftpCmdCode "NOOP".data
def cmdCDUP : Nat := ftpCmdCode "CDUP".data
def cmdCWD : Nat := ftpCmdCode "CWD".data
def cmdPWD : Nat := ftpCmdCode "PWD".data
def cmdMODE : Nat := ftpCmdCode "MODE".data
def cmdPASV : Nat := ftpCmdCode "PASV".data
def cmdPORT : Nat := ftpCmdCode "PORT".data
def cmdSTRU : Nat := ftpCmdCode "STRU".data
def cmdTYPE : Nat := ftpCmdCode "TYPE".data
def cmdABOR : Nat := ftpCmdCode "ABOR".data
def cmdDELE : Nat := ftpCmdCode "DELE".data
def cmdLIST : Nat := ftpCmdCode "LIST".data
def cmdMLSD : Nat := ftpCmdCode "MLSD".data
def cmdNLST : Nat := ftpCmdCode "NLST".data
def cmdRETR : Nat := ftpCmdCode "RETR".data
def cmdSTOR : Nat := ftpCmdCode "STOR".data
def cmdMKD : Nat := ftpCmdCode "MKD".data
def cmdRMD : Nat := ftpCmdCode "RMD".data
def cmdRNFR : Nat := ftpCmdCode "RNFR".data
def cmdRNTO : Nat := ftpCmdCode "RNTO".data
def cmdFEAT : Nat := ftpCmdCode "FEAT".data
def cmdMDTM : Nat := ftpCmdCode "MDTM".data
def cmdSIZE : Nat := ftpCmdCode "SIZE".data
def cmdSITE : Nat := ftpCmdCode "SITE".data
def cmdSYST : Nat := ftpCmdCode "SYST".data

/-- The supported command tokens, exactly the ones `processCommand` tests. -/
def supportedTokens : List (List Char) :=
  ["USER".data, "PASS".data, "QUIT".data, "NOOP".data, "CDUP".data, "CWD".data,
   "PWD".data, "MODE".data, "PASV".data, "PORT".data, "STRU".data, "TYPE".data,
   "ABOR".data, "DELE".data, "LIST".data, "MLSD".data, "NLST".data, "RETR".data,
   "STOR".data, "MKD".data, "RMD".data, "RNFR".data, "RNTO".data, "FEAT".data,
   "MDTM".data, "SIZE".data, "SITE".data, "SYST".data]

/-- The packed codes of the supported commands. -/
def supportedCodes : List Nat :=
  [cmdUSER, cmdPASS, cmdQUIT, cmdNOOP, cmdCDUP, cmdCWD, cmdPWD, cmdMODE,
   cmdPASV, cmdPORT, cmdSTRU, cmdTYPE, cmdABOR, cmdDELE, cmdLIST, cmdMLSD,
   cmdNLST, cmdRETR, cmdSTOR, cmdMKD, cmdRMD, cmdRNFR, cmdRNTO, cmdFEAT,
   cmdMDTM, cmdSIZE, cmdSITE, cmdSYST]

/-- The pieces of `FTPServer` session state that `readChar` reads and writes
(header `espFtpServer.h`, lines 127–130). -/
structure ReadState where
  command : Nat
  cmdLine : List Char
  cmdString : List Char
  parameters : List Char
deriving DecidableEq, Repr

/-- Result of one `readChar()` invocation: the return code, the updated
session fields, the bytes left unconsumed on the control channel, and the
reply codes sent (`500` for an over-long line). -/
structure ReadResult where
  rc : Int
  st : ReadState
  rest : List Char
  replies : List Nat
deriving DecidableEq, Repr

/-- The `while (control.available())` loop of `FTPServer::readChar`
(`src/FTPServer.cpp`, lines 1065–1119).  The available control-channel bytes
are the input list; one recursive step consumes one byte. -/
def readCharLoop (st : ReadState) (replies : List Nat) : List Char → ReadResult
  | [] => ⟨0, st, [], replies⟩
  | c0 :: rest =>
    -- substitute '\' with '/'
    let c := if c0 = '\\' then '/' else c0
    if c = '\n' ∨ c = '\r' then
      let line := trimAscii st.cmdLine
      if line.length = 0 then
        -- `break`: leave the while loop without producing a line
        ⟨0, { st with cmdLine := line }, rest, replies⟩
      else
        -- split the line at the first space into command and parameters
        let pos := indexOfChar ' ' line
        let parameters :=
          if pos > 0 then trimAscii (line.drop (pos.toNat + 1)) else []
        let cmdLine2 := if pos > 0 then removeFrom line pos.toNat else line
        let cmdString := strUpper cmdLine2
        ⟨1, { command := ftpCmdCode cmdString, cmdLine := [],
              cmdString := cmdString, parameters := parameters }, rest, replies⟩
    else
      let cl := st.cmdLine ++ [c]
      if cl.length > 127 then
        readCharLoop { st with cmdLine := [] } (replies ++ [500]) rest
      else
        readCharLoop { st with cmdLine := cl } replies rest

/-- `FTPServer::readChar` (`src/FTPServer.cpp`, lines 1059–1120): returns `1`
at once while a decoded command is still pending, otherwise accumulates
available bytes. -/
def readChar (st : ReadState) (input : List Char) : ReadResult :=
  if st.command ≠ 0 then ⟨1, st, input, []⟩
  else readCharLoop st [] input

/-- A fresh `ReadState`, as left by `iniVariables` (lines 99–103). -/
def cleanReadState : ReadState := ⟨0, [], [], []⟩

/-- The handler branches of `FTPServer::processCommand`
(`src/FTPServer.cpp`, lines 308–993), in source order; `hUnknown` is the
final `else` (lines 986–990) which sends `500 unknown command "<token>"`. -/
inductive Handler
  | hUSER | hPASS | hQUIT | hNOOP | hCDUP | hCWD | hPWD | hMODE | hPASV
  | hPORT | hSTRU | hTYPE | hABOR | hDELE | hLISTGROUP | hRETR | hSTOR
  | hMKD | hRMD | hRNFR | hRNTO | hFEAT | hMDTM | hSIZE | hSITE | hSYST
  | hUnknown
deriving DecidableEq, Repr

/-- The `if`/`else if` dispatch chain of `FTPServer::processCommand` on the
packed command code, in source order (`src/FTPServer.cpp`, lines 326–990). -/
def dispatch (command : Nat) : Handler :=
  if command = cmdUSER then .hUSER
  else if command = cmdPASS then .hPASS
  else if command = cmdQUIT then .hQUIT
  else if command = cmdNOOP then .hNOOP
  else if command = cmdCDUP then .hCDUP
  else if command = cmdCWD then .hCWD
  else if command = cmdPWD then .hPWD
  else if command = cmdMODE then .hMODE
  else if command = cmdPASV then .hPASV
  else if command = cmdPORT then .hPORT
  else if command = cmdSTRU then .hSTRU
  else if command = cmdTYPE then .hTYPE
  else if command = cmdABOR then .hABOR
  else if command = cmdDELE then .hDELE
  else if command = cmdLIST ∨ command = cmdMLSD ∨ command = cmdNLST then .hLISTGROUP
  else if command = cmdRETR then .hRETR
  else if command = cmdSTOR then .hSTOR
  else if command = cmdMKD then .hMKD
  else if command = cmdRMD then .hRMD
  else if command = cmdRNFR then .hRNFR
  else if command = cmdRNTO then .hRNTO
  else if command = cmdFEAT then .hFEAT
  else if command = cmdMDTM then .hMDTM
  else if command = cmdSIZE then .hSIZE
  else if command = cmdSITE then .hSITE
  else if command = cmdSYST then .hSYST
  else .hUnknown

/-! ## Login state machine (claim C1) -/

/-- The control-connection states of `FTPServer`
(`src/espFtpServer.h`-style enum, also used by `FTPServer.cpp`). -/
inductive CState
  | cInit | cWait | cCheck | cUserId | cPassword | cLoginOk | cProcess
deriving DecidableEq, Repr

/-- The configured credentials (`begin(uname, pword)`). -/
structure LoginCfg where
  user : List Char
  pass : List Char

/-- Outcome of handling one decoded command in a pre-login state: the reply
codes sent on the control connection and the next control state. -/
structure LoginStep where
  replies : List Nat
  state : CState
deriving DecidableEq, Repr

/-- The command-handling part of `FTPServer::handleFTP` for the pre-login
states `cUserId` and `cPassword` (`src/FTPServer.cpp`, lines 198–250),
inlining the `USER`, `PASS` and `FEAT` branches of `processCommand`
(lines 326–355 and 926–931) — the only branches the pre-login gate
(lines 202–209) lets through in these states.  `none` means the state or
command is outside this pre-login embedding (the surrounding liveness and
timeout checks of lines 256–271 are assumed not to fire). -/
def preLoginStep (cfg : LoginCfg) (st : CState) (cmd : Nat)
    (params : List Char) : Option LoginStep :=
  if st ≠ CState.cUserId ∧ st ≠ CState.cPassword then none
  else if cmd ≠ cmdFEAT ∧ ((st = CState.cUserId ∧ cmd ≠ cmdUSER) ∨
                           (st = CState.cPassword ∧ cmd ≠ cmdPASS)) then
    -- "530 Please login with USER and PASS.", command = 0, return
    some ⟨[530], st⟩
  else
    -- processCommand(): replies sent and return code rc
    let pc : Option (List Nat × Int) :=
      if cmd = cmdUSER then
        if cfg.user.length ≠ 0 ∧ cfg.user ≠ params then some ([430], 0)
        else some ([], 1)
      else if cmd = cmdPASS then
        if cfg.pass.length ≠ 0 ∧ cfg.pass ≠ params then some ([430], 0)
        else some ([], 1)
      else if cmd = cmdFEAT then
        -- "211-Features: ...", command = 0, rc = 0
        some ([211], 0)
      else none
    match pc with
    | none => none
    | some (rs, rc) =>
      if rc < 0 then some ⟨rs, CState.cInit⟩
      else if rc > 0 then
        if st = CState.cUserId then
          if cfg.pass.length ≠ 0 then some ⟨rs ++ [331], CState.cPassword⟩
          else some ⟨rs, CState.cLoginOk⟩
        else if st = CState.cPassword then some ⟨rs, CState.cLoginOk⟩
        else some ⟨rs, st⟩       -- aTimeout.reset only
      else some ⟨rs, st⟩         -- rc = 0: state machine does not progress

/-! ## Path resolver (claim C3) -/

/-- The sanitize loop of `FTPServer::getPathName`
(`src/FTPServer.cpp`, lines 1166–1167):
`while (tmp.length() > 1 && tmp.endsWith("/")) tmp.remove(cwd.length() - 1);`
Note the removal index comes from `cwd`, not `tmp`.  The fuel argument only
bounds the recursion: every productive iteration shortens `tmp`, so
`tmp.length` fuel is enough; exhausted fuel corresponds to the C loop
spinning forever (removal index past the end), which no theorem below
relies on. -/
def sanitizeLoop (cwdLen : Nat) : Nat → List Char → List Char
  | 0, tmp => tmp
  | fuel + 1, tmp =>
    if tmp.length > 1 ∧ endsWithSlash tmp then
      sanitizeLoop cwdLen fuel (removeFrom tmp (cwdLen - 1))
    else tmp

/-- `FTPServer::getPathName`, lines 1132–1151: build `tmp` — an absolute
`param` is taken as is, otherwise `param` (if non-empty) is appended to
`cwd` with a separator inserted when `cwd` does not already end in one. -/
def gpnJoin (cwd param : List Char) : List Char :=
  if charAtZ param 0 = '/' then param
  else
    if param.length ≠ 0 then
      (if ¬ endsWithSlash cwd then cwd ++ ['/'] else cwd) ++ param
    else cwd

/-- `FTPServer::getPathName`, lines 1153–1162: when `fullname` is false,
remove everything from the rightmost `'/'` (if any) to the end. -/
def gpnStrip (tmp : List Char) (fullname : Bool) : List Char :=
  if ¬ fullname then
    if lastIndexOfChar '/' tmp ≥ 0 then
      removeFrom tmp (lastIndexOfChar '/' tmp).toNat
    else tmp
  else tmp

/-- `FTPServer::getPathName`, lines 1168–1169: an empty result becomes
`"/"`. -/
def gpnFinish (tmp : List Char) : List Char :=
  if tmp.length = 0 then tmp ++ ['/'] else tmp

/-- `FTPServer::getPathName(param, fullname)`
(`src/FTPServer.cpp`, lines 1129–1171), with the session's `cwd` made an
explicit argument: join, strip, sanitize (the loop at lines 1166–1167,
fuelled by the current length), then the empty-to-root fixup. -/
def getPathName (cwd param : List Char) (fullname : Bool) : List Char :=
  gpnFinish (sanitizeLoop cwd.length
    (gpnStrip (gpnJoin cwd param) fullname).length
    (gpnStrip (gpnJoin cwd param) fullname))

/-- The spec's normalization: trailing separators are stripped except for the
root; an empty result becomes the root `"/"`. -/
def normalizeSpec (s : List Char) : List Char :=
  if (s.reverse.dropWhile (· = '/')).reverse = [] then ['/']
  else (s.reverse.dropWhile (· = '/')).reverse

/-- The resolver result the spec promises for a parameter that does not start
with `/`: the parameter appended to the working directory, inserting a
separator if needed, then normalized (spec §4.3 and §8). -/
def resolvePathSpec (cwd p : List Char) : List Char :=
  normalizeSpec (if endsWithSlash cwd then cwd ++ p else cwd ++ ['/'] ++ p)

/-! ## Two-step rename (claim C4) -/

/-- Outcome of an `RNFR`/`RNTO` dispatch: the reply codes, the value of the
session's `rnFrom` field afterwards, and the rename performed (if any). -/
structure RenameStep where
  replies : List Nat
  rnFrom : List Char
  renamed : Option (List Char × List Char)
deriving DecidableEq, Repr

/-- The `RNFR` branch of `FTPServer::processCommand`
(`src/FTPServer.cpp`, lines 880–894).  `fsExists` abstracts
`THEFS.exists`. -/
def processRNFR (fsExists : List Char → Bool) (rnFrom parameters path : List Char) :
    RenameStep :=
  if parameters.length = 0 then ⟨[501], rnFrom, none⟩
  else if ¬ fsExists path then ⟨[550], rnFrom, none⟩
  else ⟨[350], path, none⟩

/-- The `RNTO` branch of `FTPServer::processCommand`
(`src/FTPServer.cpp`, lines 898–915).  `renameOk` abstracts the result of
`THEFS.rename(rnFrom, path)`; `rnFrom.clear()` runs after the branch chain
whatever the outcome. -/
def processRNTO (fsExists : List Char → Bool) (renameOk : Bool)
    (rnFrom parameters path : List Char) : RenameStep :=
  let r : RenameStep :=
    if rnFrom.length = 0 then ⟨[503], rnFrom, none⟩
    else if parameters.length = 0 then ⟨[501], rnFrom, none⟩
    else if fsExists path then ⟨[553], rnFrom, none⟩
    else if renameOk then ⟨[250], rnFrom, some (rnFrom, path)⟩
    else ⟨[451], rnFrom, none⟩
  { r with rnFrom := [] }

/-! ## RETR and STOR command branches (claims C5, C7) -/

/-- What `file = THEFS.open(path, "r")` produced for `RETR`. -/
structure FileInfo where
  isFile : Bool
  size : Nat
deriving DecidableEq, Repr

/-- Transfer sub-state (`tIdle`, `tRetrieve`, `tStore`). -/
inductive TState | tIdle | tRetrieve | tStore
deriving DecidableEq, Repr

/-- The environment a `RETR` dispatch runs in: the opened file (or `none`
when the open failed), the result of `dataConnect()` (−1 none, 0 not yet,
1 connected) and whether `allocateBuffer` reported a non-zero size. -/
structure TransferCtx where
  fileOpen : Option FileInfo
  dataConnectRc : Int
  allocOk : Bool
deriving DecidableEq, Repr

/-- Outcome of one `RETR`/`STOR` dispatch: reply codes in order, the
`processCommand` return code, whether `dataConnect()` was called, the
transfer sub-state afterwards and whether a transfer buffer is held. -/
structure CmdResult where
  replies : List Nat
  rc : Int
  dataConnectAttempted : Bool
  transferState : TState
  bufferAllocated : Bool
deriving DecidableEq, Repr

/-- The `RETR` branch of `FTPServer::processCommand`
(`src/FTPServer.cpp`, lines 740–786).  On allocation failure
`closeTransfer()` runs first and itself sends a `226` reply
(lines 1027–1038) before the `451`. -/
def processRETR (parameters : List Char) (ctx : TransferCtx) : CmdResult :=
  if parameters.length = 0 then ⟨[501], 1, false, .tIdle, false⟩
  else
    match ctx.fileOpen with
    | none => ⟨[550], 1, false, .tIdle, false⟩
    | some f =>
      if ¬ f.isFile then ⟨[450], 1, false, .tIdle, false⟩
      else if ctx.dataConnectRc < 0 then ⟨[425], 1, true, .tIdle, false⟩
      else if ctx.dataConnectRc > 0 then
        if ctx.allocOk then ⟨[150], 1, true, .tRetrieve, true⟩
        else ⟨[226, 451], 1, true, .tRetrieve, false⟩
      else ⟨[], 0, true, .tIdle, false⟩

/-! ## Receive transfer poll (claim C6) -/

/-- One poll's view of the data channel in `FtpServer::doStore`:
what `data.available()` returned and what `data.connected()` reports at the
end-of-poll check. -/
structure StorePoll where
  avail : Int
  connected : Bool
deriving DecidableEq, Repr

/-- Result of one `doStore` poll: the return value (`true` = more work) and
the number of bytes appended to the file in this poll. -/
structure StoreOut where
  more : Bool
  written : Int
deriving DecidableEq, Repr

/-- `FtpServer::doStore` (`src/espFtpServer.cpp`, lines 1083–1107): read at
most `fileBufferSize` of the available bytes, append them to the file, then
report done only if the data channel is disconnected and no bytes were
available this poll.  `data.read` is modelled as delivering the requested
(capped) count, which equals the available bytes when they fit. -/
def doStore (fileBufferSize : Int) (p : StorePoll) : StoreOut :=
  let navail := p.avail
  let navail := if navail > 0 then
      (if navail > fileBufferSize then fileBufferSize else navail)
    else navail
  let written := if p.avail > 0 then navail else 0
  if ¬ p.connected ∧ navail ≤ 0 then ⟨false, written⟩
  else ⟨true, written⟩

/-! ## Transfer-buffer allocation (claim C7) -/

/-- The buffer fields of `FtpServer` (`src/espFtpServer.h`, lines 141–142):
`fileBuffer` (a pointer, `false` = `NULL`) and `fileBufferSize`.  Note that
`fileBufferSize` has no initializer and is reset neither by `freeBuffer`
nor by `iniVariables`; it is written only on a successful allocation. -/
structure BufState where
  fileBuffer : Bool
  fileBufferSize : Nat
deriving DecidableEq, Repr

/-- The `while (fileBuffer == NULL && desiredBytes > 0)` loop of
`FtpServer::allocateBuffer` (`src/espFtpServer.cpp`, lines 1035–1048);
`malloc` abstracts whether an allocation of the given size succeeds. -/
def allocLoop (malloc : Nat → Bool) : Nat → BufState → BufState
  | 0, st => st
  | d + 1, st =>
    if st.fileBuffer then st
    else if malloc (d + 1) then ⟨true, d + 1⟩
    else allocLoop malloc d st

/-- `FtpServer::allocateBuffer(desiredBytes)`
(`src/espFtpServer.cpp`, lines 1027–1050): cap the request at half the
largest free heap block, retry with progressively smaller sizes, and return
`fileBufferSize` — which, when every allocation fails, is whatever stale
value the field held before. -/
def allocateBuffer (malloc : Nat → Bool) (maxFreeBlockSize desiredBytes : Nat)
    (st : BufState) : Nat × BufState :=
  let maxBlock := maxFreeBlockSize / 2
  let d := if desiredBytes > maxBlock then maxBlock else desiredBytes
  let st2 := allocLoop malloc d st
  (st2.fileBufferSize, st2)

/-- The buffer-allocation step of the `STOR` branch
(`src/FTPServer.cpp`, lines 820–829, identical in `src/espFtpServer.cpp`
lines 818–827): `if (allocateBuffer(...))` — a non-zero return starts the
transfer with a `150` reply, zero aborts it with `closeTransfer()`
(which sends `226`) and `451`. -/
def storAllocCheck (returnedSize : Nat) : List Nat :=
  if returnedSize ≠ 0 then [150] else [226, 451]

/-! ## MDTM and timestamp rendering (claim C8) -/

/-- A broken-down UTC time as produced by `gmtime` (libc, outside the
repository); `month` is 1–12 here, `year` the full year. -/
structure Tm where
  year : Nat
  month : Nat
  day : Nat
  hour : Nat
  minute : Nat
  second : Nat
deriving DecidableEq, Repr

/-- One decimal digit character. -/
def digitChar (n : Nat) : Char := Char.ofNat (48 + n % 10)

/-- A two-digit zero-padded decimal field (`strftime` `%m %d %H %M %S`,
faithful for values below 100). -/
def twoDigits (n : Nat) : List Char := [digitChar (n / 10), digitChar n]

/-- A four-digit zero-padded decimal field (`strftime` `%Y`, faithful for
years 1000–9999 — every `gmtime` result for a 32-bit `time_t`). -/
def fourDigits (n : Nat) : List Char :=
  [digitChar (n / 1000), digitChar (n / 100), digitChar (n / 10), digitChar n]

/-- `strftime("%Y%m%d%H%M%S")`: the 14-character `YYYYMMDDHHMMSS` form. -/
def formatYmdHMS (t : Tm) : List Char :=
  fourDigits t.year ++ twoDigits t.month ++ twoDigits t.day ++
    twoDigits t.hour ++ twoDigits t.minute ++ twoDigits t.second

/-- `strftime` `%h`: abbreviated month name (month 1–12). -/
def monthAbbrev (m : Nat) : List Char :=
  (["Jan".data, "Feb".data, "Mar".data, "Apr".data, "May".data, "Jun".data,
    "Jul".data, "Aug".data, "Sep".data, "Oct".data, "Nov".data,
    "Dec".data].getD (m - 1) "Jan".data)

/-- `strftime("%h %d %H:%M")`: the `LIST`-style timestamp. -/
def formatMonDayHM (t : Tm) : List Char :=
  monthAbbrev t.month ++ [' '] ++ twoDigits t.day ++ [' '] ++
    twoDigits t.hour ++ [':'] ++ twoDigits t.minute

/-- `FTPServer::makeDateTimeStr` (`src/FTPServer.cpp`, lines 1208–1226):
formats the timestamp only when the current `command` is `MLSD` or `LIST`;
for any other command — `MDTM` included — neither branch runs and the
default-constructed (empty) `String tmp` is returned. -/
def makeDateTimeStr (command : Nat) (t : Tm) : List Char :=
  if command = cmdMLSD then formatYmdHMS t
  else if command = cmdLIST then formatMonDayHM t
  else []

/-- The `MDTM` branch of `FTPServer::processCommand`
(`src/FTPServer.cpp`, lines 936–948): reply code and reply payload (the
fixed `550` text is elided, the `213` payload is the rendered timestamp).
`fileOpenOk` abstracts the truthiness of `THEFS.open(path, "r")`, `t` the
file's `getLastWrite()` time broken down by `gmtime`. -/
def processMDTM (fileOpenOk : Bool) (parameters : List Char) (command : Nat)
    (t : Tm) : Nat × List Char :=
  if ¬ fileOpenOk ∨ parameters.length = 0 then (550, [])
  else (213, makeDateTimeStr command t)

/-! ## Buffer release (claim C10) -/

/-- The buffer pointer together with an instrumented view of the C heap:
`liveAlloc` records whether the block `fileBuffer` points to is still
allocated, `freeCount` counts `free` calls with a non-NULL argument, and
`invalidFree` records a `free` of an already-freed block (undefined
behavior in C). -/
structure BufMem where
  fileBuffer : Bool
  liveAlloc : Bool
  freeCount : Nat
  invalidFree : Bool
deriving DecidableEq, Repr

/-- C `free(fileBuffer)`: a no-op on `NULL`, otherwise deallocates —
invalid if the block was already freed. -/
def cFree (m : BufMem) : BufMem :=
  if m.fileBuffer then
    { m with liveAlloc := false, freeCount := m.freeCount + 1,
             invalidFree := m.invalidFree || !m.liveAlloc }
  else m

/-- `FtpServer::freeBuffer` (`src/espFtpServer.cpp`, lines 1052–1056):
`free(fileBuffer); fileBuffer = NULL;`. -/
def freeBuffer (m : BufMem) : BufMem :=
  { cFree m with fileBuffer := false }

/-- The operations that release the transfer buffer:
`FTPServer::abortTransfer` (`src/FTPServer.cpp`, line 1048),
`FtpServer::closeTransfer` (`src/espFtpServer.cpp`, line 1119) and
`FTPServer::iniVariables` (`src/FTPServer.cpp`, line 106).  Each calls
`freeBuffer()` exactly once and unconditionally; that call is their entire
effect on the buffer fields modelled by `BufMem`. -/
inductive BufOp | abortTransferOp | closeTransferOp | iniVariablesOp
deriving DecidableEq, Repr

/-- Effect of one buffer-releasing operation on the buffer memory: each of
the three operations calls `freeBuffer()` unconditionally. -/
def applyBufOp (op : BufOp) (m : BufMem) : BufMem := freeBuffer m

/-- Effect of a sequence of abort/close/reset operations. -/
def applyBufOps : List BufOp → BufMem → BufMem
  | [], m => m
  | op :: ops, m => applyBufOps ops (applyBufOp op m)

/-! ## Theorems -/

theorem length_ne_zero_of_ne_nil {α : Type} {l : List α} (h : l ≠ []) :
    l.length ≠ 0 := by
  simpa using h

/-- Claim C9: whenever a decoded command is pending (`command ≠ 0`), every
invocation of `readChar` returns "complete" (1) immediately, consumes no
bytes from the control channel, sends no reply, and leaves the pending
command, token and parameter string untouched. -/
theorem c9_readChar_pending (st : ReadState) (input : List Char)
    (h : st.command ≠ 0) : readChar st input = ⟨1, st, input, []⟩ := by
  simp [readChar, h]

/-- Witness for C9 at a pending `LIST` command with `STOR x` queued behind. -/
theorem c9_readChar_pending_witness :
    readChar ⟨cmdLIST, [], "LIST".data, []⟩ ("STOR x\r".data) =
      ⟨1, ⟨cmdLIST, [], "LIST".data, []⟩, "STOR x\r".data, []⟩ :=
  c9_readChar_pending _ _ (by decide)

/-- Claim C1: with both a username and a password configured, a `PASS` in the
user-id phase is answered 530 and the phase does not change; a correct
`USER` moves to the password phase with reply 331; and in the password phase
a `PASS` whose parameter differs from the configured password is answered
430 while the session stays in the password phase. -/
theorem c1_login_sequencing (cfg : LoginCfg) (p q : List Char)
    (hU : cfg.user ≠ []) (hP : cfg.pass ≠ []) (hq : q ≠ cfg.pass) :
    preLoginStep cfg CState.cUserId cmdPASS p = some ⟨[530], CState.cUserId⟩ ∧
    preLoginStep cfg CState.cUserId cmdUSER cfg.user =
      some ⟨[331], CState.cPassword⟩ ∧
    preLoginStep cfg CState.cPassword cmdPASS q =
      some ⟨[430], CState.cPassword⟩ := by
  have h1 : cmdPASS ≠ cmdFEAT := by decide
  have h2 : cmdPASS ≠ cmdUSER := by decide
  have h3 : cmdUSER ≠ cmdFEAT := by decide
  have h4 : cmdUSER ≠ cmdPASS := by decide
  have hP' : cfg.pass.length ≠ 0 := length_ne_zero_of_ne_nil hP
  have hq' : cfg.pass ≠ q := fun e => hq e.symm
  refine ⟨?_, ?_, ?_⟩ <;>
    simp [preLoginStep, h1, h2, h3, h4, hP', hq']

/-- Witness for C1 with credentials `alice`/`secret` and wrong password
`wrong`. -/
theorem c1_login_sequencing_witness :
    preLoginStep ⟨"alice".data, "secret".data⟩ CState.cUserId cmdPASS [] =
      some ⟨[530], CState.cUserId⟩ ∧
    preLoginStep ⟨"alice".data, "secret".data⟩ CState.cUserId cmdUSER
        "alice".data = some ⟨[331], CState.cPassword⟩ ∧
    preLoginStep ⟨"alice".data, "secret".data⟩ CState.cPassword cmdPASS
        "wrong".data = some ⟨[430], CState.cPassword⟩ :=
  c1_login_sequencing ⟨"alice".data, "secret".data⟩ [] "wrong".data
    (by decide) (by decide) (by decide)

/-- Claim C4: every `RNTO` dispatch leaves the rename source cleared,
whatever the outcome; after an `RNFR` of an existing file, an `RNTO` naming
an already-existing target is answered 553 (and clears the source), and any
`RNTO` issued with an empty rename source is answered 503. -/
theorem c4_rnto_clears_source (fsExists : List Char → Bool) (renameOk : Bool)
    (rn srcParams srcPath dstParams dstPath : List Char)
    (hsrc : fsExists srcPath = true) (hsp : srcParams ≠ [])
    (hsrcNe : srcPath ≠ []) (hdp : dstParams ≠ [])
    (hex : fsExists dstPath = true) :
    (∀ (ro : Bool) (rf params path : List Char),
        (processRNTO fsExists ro rf params path).rnFrom = []) ∧
    processRNFR fsExists rn srcParams srcPath = ⟨[350], srcPath, none⟩ ∧
    processRNTO fsExists renameOk
        (processRNFR fsExists rn srcParams srcPath).rnFrom dstParams dstPath =
      ⟨[553], [], none⟩ ∧
    (∀ (ro : Bool) (params path : List Char),
        (processRNTO fsExists ro [] params path).replies = [503]) := by
  have hsp' := length_ne_zero_of_ne_nil hsp
  have hdp' := length_ne_zero_of_ne_nil hdp
  have hrnfr : processRNFR fsExists rn srcParams srcPath =
      ⟨[350], srcPath, none⟩ := by
    simp [processRNFR, hsp', hsrc]
  refine ⟨fun ro rf params path => rfl, hrnfr, ?_, fun ro params path => ?_⟩
  · rw [hrnfr]
    simp [processRNTO, length_ne_zero_of_ne_nil hsrcNe, hdp', hex]
  · simp [processRNTO]

/-- Witness for C4: rename `/a` to the already-existing `/b` on a filesystem
where every path exists. -/
theorem c4_rnto_clears_source_witness :
    (∀ (ro : Bool) (rf params path : List Char),
        (processRNTO (fun _ => true) ro rf params path).rnFrom = []) ∧
    processRNFR (fun _ => true) [] "a".data "/a".data =
      ⟨[350], "/a".data, none⟩ ∧
    processRNTO (fun _ => true) true
        (processRNFR (fun _ => true) [] "a".data "/a".data).rnFrom
        "b".data "/b".data = ⟨[553], [], none⟩ ∧
    (∀ (ro : Bool) (params path : List Char),
        (processRNTO (fun _ => true) ro [] params path).replies = [503]) :=
  c4_rnto_clears_source (fun _ => true) true [] "a".data "/a".data
    "b".data "/b".data rfl (by decide) (by decide) (by decide) rfl

/-- Claim C5: for `RETR` with a non-empty parameter — open failure gives 550
with no data-connection attempt; a non-plain file gives 450 with no
data-connection attempt; a failed data channel gives 425 with the command
finished (rc = 1); allocation failure ends in a 451 reply with no buffer
held; otherwise the Send transfer starts with a 150 reply. -/
theorem c5_retr (p : List Char) (hp : p ≠ []) (sz : Nat) (dcRc : Int)
    (alloc : Bool) :
    processRETR p ⟨none, dcRc, alloc⟩ = ⟨[550], 1, false, .tIdle, false⟩ ∧
    processRETR p ⟨some ⟨false, sz⟩, dcRc, alloc⟩ =
      ⟨[450], 1, false, .tIdle, false⟩ ∧
    processRETR p ⟨some ⟨true, sz⟩, -1, alloc⟩ =
      ⟨[425], 1, true, .tIdle, false⟩ ∧
    ((processRETR p ⟨some ⟨true, sz⟩, 1, false⟩).replies.getLast? = some 451 ∧
      (processRETR p ⟨some ⟨true, sz⟩, 1, false⟩).bufferAllocated = false) ∧
    processRETR p ⟨some ⟨true, sz⟩, 1, true⟩ =
      ⟨[150], 1, true, .tRetrieve, true⟩ := by
  have hp' := length_ne_zero_of_ne_nil hp
  refine ⟨?_, ?_, ?_, ?_, ?_⟩ <;> simp [processRETR, hp']

/-- Witness for C5 at parameter `x`, file size 0. -/
theorem c5_retr_witness :
    processRETR "x".data ⟨none, 1, true⟩ = ⟨[550], 1, false, .tIdle, false⟩ ∧
    processRETR "x".data ⟨some ⟨false, 0⟩, 1, true⟩ =
      ⟨[450], 1, false, .tIdle, false⟩ ∧
    processRETR "x".data ⟨some ⟨true, 0⟩, -1, true⟩ =
      ⟨[425], 1, true, .tIdle, false⟩ ∧
    ((processRETR "x".data ⟨some ⟨true, 0⟩, 1, false⟩).replies.getLast? =
        some 451 ∧
      (processRETR "x".data ⟨some ⟨true, 0⟩, 1, false⟩).bufferAllocated =
        false) ∧
    processRETR "x".data ⟨some ⟨true, 0⟩, 1, true⟩ =
      ⟨[150], 1, true, .tRetrieve, true⟩ :=
  c5_retr "x".data (by decide) 0 1 true

/-- Claim C6: a `doStore` poll reports "more work" whenever the data channel
is still connected (even with zero bytes available), reports "done" exactly
when the channel is disconnected and no bytes were available in the same
poll, and the bytes available in the poll (capped at the buffer size) are
appended to the file even in a poll in which the peer has disconnected. -/
theorem c6_doStore (bufSize : Int) (hbuf : 0 < bufSize) (p : StorePoll) :
    (p.connected = true → (doStore bufSize p).more = true) ∧
    ((doStore bufSize p).more = false ↔
      p.connected = false ∧ p.avail ≤ 0) ∧
    (0 < p.avail →
      doStore bufSize p = ⟨true, min p.avail bufSize⟩) := by
  obtain ⟨avail, connected⟩ := p
  simp only [doStore]
  split_ifs <;>
    simp_all [min_def, StoreOut.mk.injEq] <;> omega

/-- Witness for C6: buffer of 2048, a disconnected poll with 7 bytes still
available. -/
theorem c6_doStore_witness :
    ((⟨7, false⟩ : StorePoll).connected = true →
      (doStore 2048 ⟨7, false⟩).more = true) ∧
    ((doStore 2048 ⟨7, false⟩).more = false ↔
      (⟨7, false⟩ : StorePoll).connected = false ∧
        (⟨7, false⟩ : StorePoll).avail ≤ 0) ∧
    (0 < (⟨7, false⟩ : StorePoll).avail →
      doStore 2048 ⟨7, false⟩ = ⟨true, min 7 2048⟩) :=
  c6_doStore 2048 (by decide) ⟨7, false⟩

/-- Claim C7 (failing input): `allocateBuffer` does retry descending sizes,
and reports 0 on total failure only while `fileBufferSize` is still 0 — but
after an earlier transfer left `fileBufferSize = 2048`, a `STOR` whose every
allocation fails (here: largest free block 16, so sizes 8, 7, …, 1 are
tried) gets the stale 2048 back, so the caller starts the transfer (150)
with a NULL buffer instead of reporting the 451 resource error. -/
theorem c7_allocateBuffer_stale :
    allocateBuffer (fun n => n ≤ 5) 100 8 ⟨false, 0⟩ = (5, ⟨true, 5⟩) ∧
    storAllocCheck 5 = [150] ∧
    allocateBuffer (fun _ => false) 100 8 ⟨false, 0⟩ = (0, ⟨false, 0⟩) ∧
    storAllocCheck 0 = [226, 451] ∧
    allocateBuffer (fun _ => false) 16 2048 ⟨false, 2048⟩ =
      (2048, ⟨false, 2048⟩) ∧
    storAllocCheck 2048 = [150] := by
  decide

/-- Claim C8 (failing input): for an openable file, the `MDTM` reply has code
213 but its payload is the empty string — `makeDateTimeStr` formats only
when the current command is `MLSD` or `LIST`, and `MDTM` is neither — so the
promised 14-character `YYYYMMDDHHMMSS` never appears (that format is
produced for `MLSD`); the 550 cases (unopenable file, missing parameter) do
hold. -/
theorem c8_mdtm_empty_timestamp :
    (∀ (t : Tm) (params : List Char),
        processMDTM true ("f.txt".data) cmdMDTM t = (213, []) ∧
        (processMDTM true ("f.txt".data) cmdMDTM t).2.length ≠ 14 ∧
        makeDateTimeStr cmdMDTM t = [] ∧
        processMDTM false params cmdMDTM t = (550, []) ∧
        processMDTM true [] cmdMDTM t = (550, [])) ∧
    makeDateTimeStr cmdMLSD ⟨2020, 5, 26, 12, 34, 56⟩ =
      "20200526123456".data := by
  have hm : cmdMDTM ≠ cmdMLSD := by decide
  have hl : cmdMDTM ≠ cmdLIST := by decide
  refine ⟨fun t params => ?_, by decide⟩
  refine ⟨?_, ?_, ?_, ?_, ?_⟩ <;>
    simp [processMDTM, makeDateTimeStr, hm, hl]

/-- A `freeBuffer` on a NULL pointer changes nothing. -/
theorem freeBuffer_null {m : BufMem} (h : m.fileBuffer = false) :
    freeBuffer m = m := by
  obtain ⟨fb, la, fc, iv⟩ := m
  simp only [BufMem.fileBuffer] at h
  simp [freeBuffer, cFree, h]

/-- Once the buffer pointer is NULL, further release operations are inert. -/
theorem applyBufOps_null {m : BufMem} (h : m.fileBuffer = false)
    (ops : List BufOp) : applyBufOps ops m = m := by
  induction ops with
  | nil => rfl
  | cons op ops ih =>
    simp [applyBufOps, applyBufOp, freeBuffer_null h, ih]

/-- Claim C10: releasing the transfer buffer always leaves the pointer NULL;
`freeBuffer` is idempotent; and any sequence of abort / close-transfer /
session-reset operations, started from a state whose non-NULL pointer is
live and with no invalid free so far, performs no invalid free and calls
`free` on a non-NULL pointer at most once. -/
theorem c10_freeBuffer_idempotent (m : BufMem) (ops : List BufOp)
    (hown : m.fileBuffer = true → m.liveAlloc = true)
    (hinv : m.invalidFree = false) :
    (freeBuffer m).fileBuffer = false ∧
    freeBuffer (freeBuffer m) = freeBuffer m ∧
    (applyBufOps ops m).invalidFree = false ∧
    (applyBufOps ops m).freeCount ≤
      m.freeCount + (if m.fileBuffer then 1 else 0) := by
  refine ⟨rfl, freeBuffer_null rfl, ?_⟩
  cases ops with
  | nil => exact ⟨hinv, Nat.le_add_right _ _⟩
  | cons op rest =>
    have h1 : applyBufOps (op :: rest) m = freeBuffer m := by
      show applyBufOps rest (applyBufOp op m) = _
      exact applyBufOps_null rfl rest
    rw [h1]
    cases hfb : m.fileBuffer with
    | false =>
      rw [freeBuffer_null hfb]
      exact ⟨hinv, by simp [hfb]⟩
    | true =>
      refine ⟨?_, ?_⟩ <;> simp [freeBuffer, cFree, hfb, hinv, hown hfb]

/-- Witness for C10: a live allocation released by `ABOR` then a session
reset. -/
theorem c10_freeBuffer_idempotent_witness :
    (freeBuffer ⟨true, true, 0, false⟩).fileBuffer = false ∧
    freeBuffer (freeBuffer ⟨true, true, 0, false⟩) =
      freeBuffer ⟨true, true, 0, false⟩ ∧
    (applyBufOps [.abortTransferOp, .iniVariablesOp]
        ⟨true, true, 0, false⟩).invalidFree = false ∧
    (applyBufOps [.abortTransferOp, .iniVariablesOp]
        ⟨true, true, 0, false⟩).freeCount ≤
      (0 : Nat) + (if true then 1 else 0) :=
  c10_freeBuffer_idempotent ⟨true, true, 0, false⟩
    [.abortTransferOp, .iniVariablesOp] (fun _ => rfl) rfl

/-- Whenever `readCharLoop` completes a line (rc = 1), the decoded `command`
is exactly the 4-byte little-endian packing of the upper-cased token. -/
theorem readCharLoop_command_eq (input : List Char) :
    ∀ (st : ReadState) (replies : List Nat),
      (readCharLoop st replies input).rc = 1 →
      (readCharLoop st replies input).st.command =
        ftpCmdCode (readCharLoop st replies input).st.cmdString := by
  induction input with
  | nil => intro st replies h; simp [readCharLoop] at h
  | cons c0 rest ih =>
    intro st replies h
    simp only [readCharLoop] at h ⊢
    split_ifs at h ⊢ <;> first
      | rfl
      | simp_all

/-- The unknown-command branch runs exactly for command codes that match no
supported command's packed code. -/
theorem dispatch_eq_hUnknown (c : Nat) :
    dispatch c = Handler.hUnknown ↔ c ∉ supportedCodes := by
  constructor
  · intro hd hc
    simp only [supportedCodes, List.mem_cons, List.not_mem_nil, or_false] at hc
    rcases hc with h|h|h|h|h|h|h|h|h|h|h|h|h|h|h|h|h|h|h|h|h|h|h|h|h|h|h|h <;>
      subst h <;> revert hd <;> decide
  · intro hc
    simp only [supportedCodes, List.mem_cons, List.not_mem_nil, or_false,
      not_or] at hc
    obtain ⟨h1,h2,h3,h4,h5,h6,h7,h8,h9,h10,h11,h12,h13,h14,h15,h16,h17,h18,
      h19,h20,h21,h22,h23,h24,h25,h26,h27,h28⟩ := hc
    unfold dispatch
    rw [if_neg h1, if_neg h2, if_neg h3, if_neg h4, if_neg h5, if_neg h6,
      if_neg h7, if_neg h8, if_neg h9, if_neg h10, if_neg h11, if_neg h12,
      if_neg h13, if_neg h14,
      if_neg (by push_neg; exact ⟨h15, h16, h17⟩),
      if_neg h18, if_neg h19, if_neg h20, if_neg h21, if_neg h22, if_neg h23,
      if_neg h24, if_neg h25, if_neg h26, if_neg h27, if_neg h28]

/-- Claim C2 counterexample: the received token `LISTX` is not a supported
command token, yet decoding it yields the packed code of `LIST`, so the
`LIST`/`MLSD`/`NLST` handler runs instead of the unknown-command (500)
branch. -/
theorem c2_counterexample :
    "LISTX".data ∉ supportedTokens ∧
    (readChar cleanReadState ("LISTX\r".data)).rc = 1 ∧
    (readChar cleanReadState ("LISTX\r".data)).st.cmdString = "LISTX".data ∧
    dispatch (readChar cleanReadState ("LISTX\r".data)).st.command =
      Handler.hLISTGROUP ∧
    Handler.hLISTGROUP ≠ Handler.hUnknown := by decide

/-- Claim C2 (amended): a completed command line is dispatched on the
little-endian packing of the first four bytes of its upper-cased token; the
unknown-command (500) branch runs exactly when that packed code matches no
supported command's code — so a longer token that shares its first four
bytes with a supported 4-character command (such as `LISTX`) is dispatched
to that command's handler, not to the unknown branch. -/
theorem c2_dispatch_by_packed_code (line : List Char)
    (h : (readChar cleanReadState line).rc = 1) :
    (readChar cleanReadState line).st.command =
      ftpCmdCode (readChar cleanReadState line).st.cmdString ∧
    (∀ c : Nat, dispatch c = Handler.hUnknown ↔ c ∉ supportedCodes) ∧
    dispatch (ftpCmdCode ("LISTX".data)) = Handler.hLISTGROUP := by
  refine ⟨?_, dispatch_eq_hUnknown, by decide⟩
  have he : readChar cleanReadState line = readCharLoop cleanReadState [] line := rfl
  rw [he] at h ⊢
  exact readCharLoop_command_eq line cleanReadState [] h

/-- Witness for C2 (amended) on the line `XYZ`. -/
theorem c2_dispatch_by_packed_code_witness :
    (readChar cleanReadState ("XYZ\r".data)).rc = 1 ∧
    ((readChar cleanReadState ("XYZ\r".data)).st.command =
        ftpCmdCode (readChar cleanReadState ("XYZ\r".data)).st.cmdString ∧
      (∀ c : Nat, dispatch c = Handler.hUnknown ↔ c ∉ supportedCodes) ∧
      dispatch (ftpCmdCode ("LISTX".data)) = Handler.hLISTGROUP) :=
  ⟨by decide, c2_dispatch_by_packed_code ("XYZ\r".data) (by decide)⟩

/-- Appending a non-empty string makes the trailing-separator test depend
only on the appended part. -/
theorem endsWithSlash_append (xs : List Char) {p : List Char} (hp : p ≠ []) :
    endsWithSlash (xs ++ p) = endsWithSlash p := by
  unfold endsWithSlash
  rw [List.reverse_append]
  cases hr : p.reverse with
  | nil => exact absurd (by simpa using hr) hp
  | cons c t => simp

/-- A string without `'/'` does not end in `'/'`. -/
theorem endsWithSlash_eq_false {p : List Char} (h : '/' ∉ p) :
    endsWithSlash p = false := by
  unfold endsWithSlash
  cases hr : p.reverse with
  | nil => rfl
  | cons c t =>
    have hc : c ∈ p := by
      have : c ∈ p.reverse := by rw [hr]; exact List.mem_cons_self c t
      simpa using this
    have hne : ¬ (c = '/') := fun e => h (e ▸ hc)
    simp [hr, hne]

/-- `lastIndexOf` misses characters that do not occur. -/
theorem lastIndexOfChar_not_mem {c : Char} {p : List Char} (h : c ∉ p) :
    lastIndexOfChar c p = -1 := by
  induction p with
  | nil => rfl
  | cons a rest ih =>
    have ha : ¬ (a = c) := fun e => h (e ▸ List.mem_cons_self a rest)
    have hrest : c ∉ rest := fun hm => h (List.mem_cons_of_mem a hm)
    rw [lastIndexOfChar, ih hrest]
    norm_num [ha]

/-- The last occurrence of `c` in `xs ++ c :: ys` with `c ∉ ys` is at index
`xs.length`. -/
theorem lastIndexOfChar_append_cons (c : Char) (xs : List Char)
    {ys : List Char} (h : c ∉ ys) :
    lastIndexOfChar c (xs ++ c :: ys) = (xs.length : Int) := by
  induction xs with
  | nil =>
    rw [List.nil_append, lastIndexOfChar, lastIndexOfChar_not_mem h]
    norm_num
  | cons a rest ih =>
    rw [List.cons_append, lastIndexOfChar, ih]
    have hge : ((rest.length : Int) ≥ 0) := Int.natCast_nonneg _
    rw [if_pos hge]
    push_cast [List.length_cons]
    ring

/-- Normalization is the identity on non-empty strings without a trailing
separator. -/
theorem normalizeSpec_no_slash {s : List Char} (hs : s ≠ [])
    (h : endsWithSlash s = false) : normalizeSpec s = s := by
  unfold normalizeSpec
  cases hr : s.reverse with
  | nil => exact absurd (by simpa using hr) hs
  | cons c t =>
    have hc : ¬ (c = '/') := by
      unfold endsWithSlash at h
      rw [hr] at h
      simpa using h
    rw [List.dropWhile_cons]
    simp [hc, ← hr, hs]

/-- The sanitize loop exits immediately when its guard fails. -/
theorem sanitizeLoop_stop {tmp : List Char} (k fuel : Nat)
    (h : ¬ (tmp.length > 1 ∧ endsWithSlash tmp = true)) :
    sanitizeLoop k fuel tmp = tmp := by
  cases fuel with
  | zero => rfl
  | succ n => simp only [sanitizeLoop, if_neg h]

/-- Claim C3 (amended): for every working directory that is the root or does
not end in a separator, and every non-empty parameter containing no `'/'`,
`getPathName` with `fullname = true` returns the normalized concatenation of
`cwd` and the parameter (separator inserted when needed), and with
`fullname = false` returns `cwd` itself. -/
theorem c3_getPathName (cwd p : List Char)
    (hcwd : cwd = ['/'] ∨ (cwd ≠ [] ∧ endsWithSlash cwd = false))
    (hp : p ≠ []) (hps : '/' ∉ p) :
    getPathName cwd p true = resolvePathSpec cwd p ∧
    getPathName cwd p false = cwd := by
  have hp0 : ¬ (charAtZ p 0 = '/') := by
    cases p with
    | nil => exact absurd rfl hp
    | cons a t =>
      intro e
      simp only [charAtZ, List.getD_cons_zero] at e
      exact hps (e ▸ List.mem_cons_self a t)
  have hplen : p.length ≠ 0 := fun e => hp (List.length_eq_zero.mp e)
  have hpend : endsWithSlash p = false := endsWithSlash_eq_false hps
  rcases hcwd with hroot | ⟨hne, hnend⟩
  · -- cwd = "/"
    subst hroot
    have hj : gpnJoin ['/'] p = '/' :: p := by
      simp [gpnJoin, hp0, hplen, (by decide : endsWithSlash ['/'] = true)]
    have hsl : endsWithSlash ('/' :: p) = false := by
      have := endsWithSlash_append ['/'] hp
      simpa using this.trans hpend
    constructor
    · unfold getPathName
      rw [hj]
      have hstrip : gpnStrip ('/' :: p) true = '/' :: p := by simp [gpnStrip]
      rw [hstrip, sanitizeLoop_stop _ _ (by simp [hsl])]
      have hfin : gpnFinish ('/' :: p) = '/' :: p := by
        simp [gpnFinish]
      rw [hfin]
      unfold resolvePathSpec
      rw [if_pos (by decide : endsWithSlash ['/'] = true)]
      exact (normalizeSpec_no_slash (by simp) (by simpa using hsl)).symm
    · unfold getPathName
      rw [hj]
      have hlast : lastIndexOfChar '/' ('/' :: p) = 0 := by
        have := lastIndexOfChar_append_cons '/' [] hps
        simpa using this
      have hstrip : gpnStrip ('/' :: p) false = [] := by
        simp [gpnStrip, hlast, removeFrom]
      rw [hstrip, sanitizeLoop_stop _ _ (by simp)]
      simp [gpnFinish]
  · -- cwd does not end in '/'
    have hj : gpnJoin cwd p = cwd ++ '/' :: p := by
      simp [gpnJoin, hp0, hplen, hnend]
    have hsl : endsWithSlash (cwd ++ '/' :: p) = false := by
      have := endsWithSlash_append cwd (p := '/' :: p) (by simp)
      rw [this]
      have := endsWithSlash_append ['/'] hp
      simpa using this.trans hpend
    constructor
    · unfold getPathName
      rw [hj]
      have hstrip : gpnStrip (cwd ++ '/' :: p) true = cwd ++ '/' :: p := by
        simp [gpnStrip]
      rw [hstrip, sanitizeLoop_stop _ _ (by simp [hsl])]
      have hfin : gpnFinish (cwd ++ '/' :: p) = cwd ++ '/' :: p := by
        simp [gpnFinish]
      rw [hfin]
      unfold resolvePathSpec
      rw [if_neg (by simp [hnend])]
      have : cwd ++ ['/'] ++ p = cwd ++ '/' :: p := by simp
      rw [this]
      exact (normalizeSpec_no_slash (by simp) hsl).symm
    · unfold getPathName
      rw [hj]
      have hlast : lastIndexOfChar '/' (cwd ++ '/' :: p) = (cwd.length : Int) :=
        lastIndexOfChar_append_cons '/' cwd hps
      have hstrip : gpnStrip (cwd ++ '/' :: p) false = cwd := by
        simp only [gpnStrip, hlast]
        rw [if_pos (by simp), if_pos (Int.natCast_nonneg cwd.length)]
        simp only [Int.toNat_natCast]
        unfold removeFrom
        rw [if_pos (by simp only [List.length_append, List.length_cons]; omega)]
        exact List.take_left cwd ('/' :: p)
      rw [hstrip, sanitizeLoop_stop _ _ (by simp [hnend])]
      simp [gpnFinish, hne]

/-- Claim C3 counterexample: for `cwd = "/a"` the resolver does not return
the normalized concatenation — with parameter `b/` (trailing separator) the
sanitize loop removes from index `cwd.length - 1` and collapses the result
to `"/"` instead of `"/a/b"`; and with `wantFullPath = false` a parameter
containing a separator (`d/c`) yields `"/a/d"`, not `cwd`. -/
theorem c3_counterexample :
    getPathName ("/a".data) ("b/".data) true = "/".data ∧
    resolvePathSpec ("/a".data) ("b/".data) = "/a/b".data ∧
    "/".data ≠ "/a/b".data ∧
    getPathName ("/a".data) ("d/c".data) false = "/a/d".data ∧
    "/a/d".data ≠ "/a".data := by decide

/-- Witness for C3 (amended) at `cwd = "/a"`, parameter `b`. -/
theorem c3_getPathName_witness :
    getPathName ("/a".data) ("b".data) true =
      resolvePathSpec ("/a".data) ("b".data) ∧
    getPathName ("/a".data) ("b".data) false = "/a".data :=
  c3_getPathName ("/a".data) ("b".data) (Or.inr ⟨by decide, by decide⟩)
    (by decide) (by decide)
